import Mathlib

/-!
Verification of the `AllowedSplits` permission-set type from
`src/widgets/dock_area/allowed_splits.rs`.

The Rust type wraps a `u8`; we model the wrapped integer as a `Nat` and the
panic in `from_u8` as `Option.none`.  Bitwise `&`/`|` on `u8` become
`Nat.land`/`Nat.lor` (`&&&`/`|||`), which agree with the Rust semantics on the
values in play (no overflow is possible for `&`/`|` on `u8`).
-/

/-- The external split-direction enumeration (`crate::tree::Split`):
four variants Left, Right, Above, Below. -/
inductive Split where
  | Left
  | Right
  | Above
  | Below
deriving DecidableEq, Repr

/-- Rust: `pub struct AllowedSplits(u8)` — a wrapper around a small unsigned
integer, only the low 4 bits meaningful. -/
structure AllowedSplits where
  val : Nat
deriving DecidableEq, Repr

namespace AllowedSplits

/-- Rust: `pub const ALL: Self = Self(0b1111)` -/
def ALL : AllowedSplits := ⟨0b1111⟩

/-- Rust: `pub const LEFT: Self = Self(0b1000)` -/
def LEFT : AllowedSplits := ⟨0b1000⟩

/-- Rust: `pub const RIGHT: Self = Self(0b0100)` -/
def RIGHT : AllowedSplits := ⟨0b0100⟩

/-- Rust: `pub const LEFT_RIGHT: Self = Self(0b1100)` -/
def LEFT_RIGHT : AllowedSplits := ⟨0b1100⟩

/-- Rust: `pub const TOP: Self = Self(0b0010)` -/
def TOP : AllowedSplits := ⟨0b0010⟩

/-- Rust: `pub const BOTTOM: Self = Self(0b0001)` -/
def BOTTOM : AllowedSplits := ⟨0b0001⟩

/-- Rust: `pub const TOP_BOTTOM: Self = Self(0b0011)` -/
def TOP_BOTTOM : AllowedSplits := ⟨0b0011⟩

/-- Rust: `pub const NONE: Self = Self(0b0000)` -/
def NONE : AllowedSplits := ⟨0b0000⟩

/-- Rust: `impl Default for AllowedSplits { fn default() -> Self { AllowedSplits::ALL } }` -/
def default : AllowedSplits := ALL

/-- Rust: `fn from_u8(u8: u8) -> Self` — panics if the value exceeds `0b1111`;
the panic is modelled as `Option.none`. -/
def from_u8 (u : Nat) : Option AllowedSplits :=
  if u > 0b1111 then Option.none else some ⟨u⟩

/-- Rust: `fn bitand(self, rhs: Self) -> Self { Self::from_u8(self.0 & rhs.0) }` -/
def bitand (s rhs : AllowedSplits) : Option AllowedSplits :=
  from_u8 (s.val &&& rhs.val)

/-- Rust: `fn bitand_assign(&mut self, rhs: Self) { *self = Self::from_u8(self.0 & rhs.0) }`
— the mutation is modelled by returning the value written to `*self`. -/
def bitand_assign (s rhs : AllowedSplits) : Option AllowedSplits :=
  from_u8 (s.val &&& rhs.val)

/-- Rust: `fn bitor(self, rhs: Self) -> Self { Self::from_u8(self.0 | rhs.0) }` -/
def bitor (s rhs : AllowedSplits) : Option AllowedSplits :=
  from_u8 (s.val ||| rhs.val)

/-- Rust: `fn bitor_assign(&mut self, rhs: Self) { *self = Self::from_u8(self.0 | rhs.0) }`
— the mutation is modelled by returning the value written to `*self`. -/
def bitor_assign (s rhs : AllowedSplits) : Option AllowedSplits :=
  from_u8 (s.val ||| rhs.val)

/-- Rust: `pub const fn top(&self) -> bool { self.0 & Self::TOP.0 != 0 }` -/
def top (s : AllowedSplits) : Bool :=
  s.val &&& TOP.val != 0

/-- Rust: `pub const fn bottom(&self) -> bool { self.0 & Self::BOTTOM.0 != 0 }` -/
def bottom (s : AllowedSplits) : Bool :=
  s.val &&& BOTTOM.val != 0

/-- Rust: `pub const fn top_or_bottom(&self) -> bool { self.0 & Self::TOP_BOTTOM.0 != 0 }` -/
def top_or_bottom (s : AllowedSplits) : Bool :=
  s.val &&& TOP_BOTTOM.val != 0

/-- Rust: `pub const fn left(&self) -> bool { self.0 & Self::LEFT.0 != 0 }` -/
def left (s : AllowedSplits) : Bool :=
  s.val &&& LEFT.val != 0

/-- Rust: `pub const fn right(&self) -> bool { self.0 & Self::RIGHT.0 != 0 }` -/
def right (s : AllowedSplits) : Bool :=
  s.val &&& RIGHT.val != 0

/-- Rust: `pub const fn left_or_right(&self) -> bool { self.0 & Self::LEFT_RIGHT.0 != 0 }` -/
def left_or_right (s : AllowedSplits) : Bool :=
  s.val &&& LEFT_RIGHT.val != 0

/-- Rust: `pub const fn none(&self) -> bool { self.0 == Self::NONE.0 }` -/
def none (s : AllowedSplits) : Bool :=
  s.val == NONE.val

/-- Rust: `pub const fn all(&self) -> bool { self.0 == Self::ALL.0 }` -/
def all (s : AllowedSplits) : Bool :=
  s.val == ALL.val

/-- Rust: `pub(crate) const fn allowed(&self, tree_split: &crate::tree::Split) -> bool` -/
def allowed (s : AllowedSplits) (tree_split : Split) : Bool :=
  match tree_split with
  | Split.Left => s.left
  | Split.Right => s.right
  | Split.Above => s.top
  | Split.Below => s.bottom

/-- A permission set is valid when its wrapped integer is in [0, 15]. -/
def Valid (s : AllowedSplits) : Prop := s.val ≤ 15

instance (s : AllowedSplits) : Decidable s.Valid := by
  unfold Valid
  infer_instance

end AllowedSplits

/-- Spec predicate: construction did not panic and the result satisfies the
range invariant. -/
def OptValid (o : Option AllowedSplits) : Prop :=
  match o with
  | Option.none => False
  | some c => c.Valid

instance (o : Option AllowedSplits) : Decidable (OptValid o) := by
  unfold OptValid
  cases o <;> infer_instance

/-- C1: for every raw integer v > 15, `from_u8 v` fails fatally (panic,
modelled as `Option.none`) — it never silently succeeds or clamps. -/
theorem c1_from_u8_fails_above_15 (v : Nat) (h : 15 < v) :
    AllowedSplits.from_u8 v = Option.none := by
  unfold AllowedSplits.from_u8
  rw [if_pos]
  exact h

/-- Witness for C1 at v = 16. -/
theorem c1_from_u8_fails_above_15_witness :
    AllowedSplits.from_u8 16 = Option.none :=
  c1_from_u8_fails_above_15 16 (by decide)

/-- C2: for every raw integer v in [0,15], `from_u8 v` succeeds and the four
predicates on the result are true exactly when bits 3, 2, 1, 0 of v are set
(left, right, top, bottom respectively). -/
theorem c2_from_u8_roundtrip (v : Nat) (h : v ≤ 15) :
    ∃ s, AllowedSplits.from_u8 v = some s ∧
      s.left = v.testBit 3 ∧ s.right = v.testBit 2 ∧
      s.top = v.testBit 1 ∧ s.bottom = v.testBit 0 := by
  have key : ∀ w, w < 16 →
      AllowedSplits.left ⟨w⟩ = Nat.testBit w 3 ∧
      AllowedSplits.right ⟨w⟩ = Nat.testBit w 2 ∧
      AllowedSplits.top ⟨w⟩ = Nat.testBit w 1 ∧
      AllowedSplits.bottom ⟨w⟩ = Nat.testBit w 0 := by decide
  have hv : v < 16 := Nat.lt_succ_of_le h
  refine ⟨⟨v⟩, ?_, (key v hv).1, (key v hv).2.1, (key v hv).2.2.1, (key v hv).2.2.2⟩
  unfold AllowedSplits.from_u8
  rw [if_neg]
  omega

/-- Witness for C2 at v = 10 (0b1010: left and top set). -/
theorem c2_from_u8_roundtrip_witness :
    ∃ s, AllowedSplits.from_u8 10 = some s ∧
      s.left = Nat.testBit 10 3 ∧ s.right = Nat.testBit 10 2 ∧
      s.top = Nat.testBit 10 1 ∧ s.bottom = Nat.testBit 10 0 :=
  c2_from_u8_roundtrip 10 (by decide)

/-- C3: applied to valid operands, intersection, union and their assign
variants never hit the panic branch of `from_u8` and produce a value still in
[0,15]; all presets and the default value are in [0,15] as well. -/
theorem c3_range_invariant (a b : AllowedSplits) (ha : a.Valid) (hb : b.Valid) :
    OptValid (a.bitand b) ∧ OptValid (a.bitor b) ∧
    OptValid (a.bitand_assign b) ∧ OptValid (a.bitor_assign b) ∧
    AllowedSplits.ALL.Valid ∧ AllowedSplits.NONE.Valid ∧
    AllowedSplits.LEFT.Valid ∧ AllowedSplits.RIGHT.Valid ∧
    AllowedSplits.LEFT_RIGHT.Valid ∧ AllowedSplits.TOP.Valid ∧
    AllowedSplits.BOTTOM.Valid ∧ AllowedSplits.TOP_BOTTOM.Valid ∧
    AllowedSplits.default.Valid := by
  obtain ⟨x⟩ := a
  obtain ⟨y⟩ := b
  have hx : x < 16 := Nat.lt_succ_of_le ha
  have hy : y < 16 := Nat.lt_succ_of_le hb
  have key : ∀ u, u < 16 → ∀ w, w < 16 →
      OptValid (AllowedSplits.bitand ⟨u⟩ ⟨w⟩) ∧
      OptValid (AllowedSplits.bitor ⟨u⟩ ⟨w⟩) ∧
      OptValid (AllowedSplits.bitand_assign ⟨u⟩ ⟨w⟩) ∧
      OptValid (AllowedSplits.bitor_assign ⟨u⟩ ⟨w⟩) := by decide
  refine ⟨(key x hx y hy).1, (key x hx y hy).2.1, (key x hx y hy).2.2.1,
    (key x hx y hy).2.2.2, by decide, by decide, by decide, by decide,
    by decide, by decide, by decide, by decide, by decide⟩

/-- Witness for C3 at a = LEFT, b = LEFT_RIGHT. -/
theorem c3_range_invariant_witness :
    OptValid (AllowedSplits.LEFT.bitand AllowedSplits.LEFT_RIGHT) ∧
    OptValid (AllowedSplits.LEFT.bitor AllowedSplits.LEFT_RIGHT) ∧
    OptValid (AllowedSplits.LEFT.bitand_assign AllowedSplits.LEFT_RIGHT) ∧
    OptValid (AllowedSplits.LEFT.bitor_assign AllowedSplits.LEFT_RIGHT) ∧
    AllowedSplits.ALL.Valid ∧ AllowedSplits.NONE.Valid ∧
    AllowedSplits.LEFT.Valid ∧ AllowedSplits.RIGHT.Valid ∧
    AllowedSplits.LEFT_RIGHT.Valid ∧ AllowedSplits.TOP.Valid ∧
    AllowedSplits.BOTTOM.Valid ∧ AllowedSplits.TOP_BOTTOM.Valid ∧
    AllowedSplits.default.Valid :=
  c3_range_invariant AllowedSplits.LEFT AllowedSplits.LEFT_RIGHT
    (by decide) (by decide)

/-- C4: for valid operands and every direction d, the intersection has d
enabled iff both operands have it, and the union has d enabled iff at least
one operand has it (the results are inspected through `Option.map` since the
operators go through the panicking constructor). -/
theorem c4_pointwise_and_or (a b : AllowedSplits) (ha : a.Valid) (hb : b.Valid) :
    ∀ d : Split,
      Option.map (fun c => c.allowed d) (a.bitand b)
        = some (a.allowed d && b.allowed d) ∧
      Option.map (fun c => c.allowed d) (a.bitor b)
        = some (a.allowed d || b.allowed d) := by
  obtain ⟨x⟩ := a
  obtain ⟨y⟩ := b
  have hx : x < 16 := Nat.lt_succ_of_le ha
  have hy : y < 16 := Nat.lt_succ_of_le hb
  have key : ∀ u, u < 16 → ∀ w, w < 16 →
      (∀ d ∈ [Split.Left, Split.Right, Split.Above, Split.Below],
        Option.map (fun c => AllowedSplits.allowed c d)
            (AllowedSplits.bitand ⟨u⟩ ⟨w⟩)
          = some (AllowedSplits.allowed ⟨u⟩ d && AllowedSplits.allowed ⟨w⟩ d) ∧
        Option.map (fun c => AllowedSplits.allowed c d)
            (AllowedSplits.bitor ⟨u⟩ ⟨w⟩)
          = some (AllowedSplits.allowed ⟨u⟩ d || AllowedSplits.allowed ⟨w⟩ d)) := by
    decide
  intro d
  cases d
  case Left => exact key x hx y hy Split.Left (by simp)
  case Right => exact key x hx y hy Split.Right (by simp)
  case Above => exact key x hx y hy Split.Above (by simp)
  case Below => exact key x hx y hy Split.Below (by simp)

/-- Witness for C4 at a = LEFT_RIGHT, b = TOP, d = Left. -/
theorem c4_pointwise_and_or_witness :
    Option.map (fun c => c.allowed Split.Left)
        (AllowedSplits.LEFT_RIGHT.bitand AllowedSplits.TOP)
      = some (AllowedSplits.LEFT_RIGHT.allowed Split.Left
              && AllowedSplits.TOP.allowed Split.Left) ∧
    Option.map (fun c => c.allowed Split.Left)
        (AllowedSplits.LEFT_RIGHT.bitor AllowedSplits.TOP)
      = some (AllowedSplits.LEFT_RIGHT.allowed Split.Left
              || AllowedSplits.TOP.allowed Split.Left) :=
  c4_pointwise_and_or AllowedSplits.LEFT_RIGHT AllowedSplits.TOP
    (by decide) (by decide) Split.Left

/-- C5: `allowed` agrees with the single-direction predicates:
allowed(Left) = left(), allowed(Right) = right(), allowed(Above) = top(),
allowed(Below) = bottom(), for every permission set. -/
theorem c5_allowed_matches_predicates (s : AllowedSplits) :
    s.allowed Split.Left = s.left ∧ s.allowed Split.Right = s.right ∧
    s.allowed Split.Above = s.top ∧ s.allowed Split.Below = s.bottom :=
  ⟨rfl, rfl, rfl, rfl⟩

/-- C6: over valid operands, intersection and union are commutative,
associative (composition threaded through `Option.bind`), and idempotent. -/
theorem c6_algebraic_laws (x y z : AllowedSplits)
    (hx : x.Valid) (hy : y.Valid) (hz : z.Valid) :
    x.bitand y = y.bitand x ∧ x.bitor y = y.bitor x ∧
    Option.bind (x.bitand y) (fun w => w.bitand z)
      = Option.bind (y.bitand z) (fun w => x.bitand w) ∧
    Option.bind (x.bitor y) (fun w => w.bitor z)
      = Option.bind (y.bitor z) (fun w => x.bitor w) ∧
    x.bitand x = some x ∧ x.bitor x = some x := by
  obtain ⟨u⟩ := x
  obtain ⟨v⟩ := y
  obtain ⟨w⟩ := z
  have hu : u < 16 := Nat.lt_succ_of_le hx
  have hv : v < 16 := Nat.lt_succ_of_le hy
  have hw : w < 16 := Nat.lt_succ_of_le hz
  have comm : ∀ p, p < 16 → ∀ q, q < 16 →
      AllowedSplits.bitand ⟨p⟩ ⟨q⟩ = AllowedSplits.bitand ⟨q⟩ ⟨p⟩ ∧
      AllowedSplits.bitor ⟨p⟩ ⟨q⟩ = AllowedSplits.bitor ⟨q⟩ ⟨p⟩ := by decide
  have assoc : ∀ p, p < 16 → ∀ q, q < 16 → ∀ r, r < 16 →
      Option.bind (AllowedSplits.bitand ⟨p⟩ ⟨q⟩)
          (fun t => AllowedSplits.bitand t ⟨r⟩)
        = Option.bind (AllowedSplits.bitand ⟨q⟩ ⟨r⟩)
          (fun t => AllowedSplits.bitand ⟨p⟩ t) ∧
      Option.bind (AllowedSplits.bitor ⟨p⟩ ⟨q⟩)
          (fun t => AllowedSplits.bitor t ⟨r⟩)
        = Option.bind (AllowedSplits.bitor ⟨q⟩ ⟨r⟩)
          (fun t => AllowedSplits.bitor ⟨p⟩ t) := by decide
  have idem : ∀ p, p < 16 →
      AllowedSplits.bitand ⟨p⟩ ⟨p⟩ = some ⟨p⟩ ∧
      AllowedSplits.bitor ⟨p⟩ ⟨p⟩ = some ⟨p⟩ := by decide
  exact ⟨(comm u hu v hv).1, (comm u hu v hv).2, (assoc u hu v hv w hw).1,
    (assoc u hu v hv w hw).2, (idem u hu).1, (idem u hu).2⟩

/-- Witness for C6 at x = LEFT, y = TOP_BOTTOM, z = ALL. -/
theorem c6_algebraic_laws_witness :
    AllowedSplits.LEFT.bitand AllowedSplits.TOP_BOTTOM
      = AllowedSplits.TOP_BOTTOM.bitand AllowedSplits.LEFT ∧
    AllowedSplits.LEFT.bitor AllowedSplits.TOP_BOTTOM
      = AllowedSplits.TOP_BOTTOM.bitor AllowedSplits.LEFT ∧
    Option.bind (AllowedSplits.LEFT.bitand AllowedSplits.TOP_BOTTOM)
        (fun w => w.bitand AllowedSplits.ALL)
      = Option.bind (AllowedSplits.TOP_BOTTOM.bitand AllowedSplits.ALL)
        (fun w => AllowedSplits.LEFT.bitand w) ∧
    Option.bind (AllowedSplits.LEFT.bitor AllowedSplits.TOP_BOTTOM)
        (fun w => w.bitor AllowedSplits.ALL)
      = Option.bind (AllowedSplits.TOP_BOTTOM.bitor AllowedSplits.ALL)
        (fun w => AllowedSplits.LEFT.bitor w) ∧
    AllowedSplits.LEFT.bitand AllowedSplits.LEFT = some AllowedSplits.LEFT ∧
    AllowedSplits.LEFT.bitor AllowedSplits.LEFT = some AllowedSplits.LEFT :=
  c6_algebraic_laws AllowedSplits.LEFT AllowedSplits.TOP_BOTTOM AllowedSplits.ALL
    (by decide) (by decide) (by decide)

/-- C7: NONE is the union identity and intersection absorbing element, and
ALL is the intersection identity and union absorbing element, for every valid
permission set. -/
theorem c7_identity_absorbing (x : AllowedSplits) (hx : x.Valid) :
    x.bitor AllowedSplits.NONE = some x ∧
    x.bitand AllowedSplits.NONE = some AllowedSplits.NONE ∧
    x.bitand AllowedSplits.ALL = some x ∧
    x.bitor AllowedSplits.ALL = some AllowedSplits.ALL := by
  obtain ⟨u⟩ := x
  have hu : u < 16 := Nat.lt_succ_of_le hx
  have key : ∀ p, p < 16 →
      AllowedSplits.bitor ⟨p⟩ AllowedSplits.NONE = some ⟨p⟩ ∧
      AllowedSplits.bitand ⟨p⟩ AllowedSplits.NONE = some AllowedSplits.NONE ∧
      AllowedSplits.bitand ⟨p⟩ AllowedSplits.ALL = some ⟨p⟩ ∧
      AllowedSplits.bitor ⟨p⟩ AllowedSplits.ALL = some AllowedSplits.ALL := by
    decide
  exact key u hu

/-- Witness for C7 at x = LEFT_RIGHT. -/
theorem c7_identity_absorbing_witness :
    AllowedSplits.LEFT_RIGHT.bitor AllowedSplits.NONE
      = some AllowedSplits.LEFT_RIGHT ∧
    AllowedSplits.LEFT_RIGHT.bitand AllowedSplits.NONE
      = some AllowedSplits.NONE ∧
    AllowedSplits.LEFT_RIGHT.bitand AllowedSplits.ALL
      = some AllowedSplits.LEFT_RIGHT ∧
    AllowedSplits.LEFT_RIGHT.bitor AllowedSplits.ALL
      = some AllowedSplits.ALL :=
  c7_identity_absorbing AllowedSplits.LEFT_RIGHT (by decide)

/-- C8: the in-place assign variants have semantics identical to the value
variants: the value written by `&=` is exactly the value of `&`, and the value
written by `|=` is exactly the value of `|`, for all operands. -/
theorem c8_assign_variants_agree (x y : AllowedSplits) :
    x.bitand_assign y = x.bitand y ∧ x.bitor_assign y = x.bitor y :=
  ⟨rfl, rfl⟩

/-- C9: for every valid permission set, `left_or_right` is the disjunction of
`left` and `right`, `top_or_bottom` is the disjunction of `top` and `bottom`,
`none` is true iff the set equals NONE exactly, and `all` is true iff the set
equals ALL exactly. -/
theorem c9_compound_predicates (s : AllowedSplits) (hs : s.Valid) :
    s.left_or_right = (s.left || s.right) ∧
    s.top_or_bottom = (s.top || s.bottom) ∧
    (s.none = true ↔ s = AllowedSplits.NONE) ∧
    ( s.all = true ↔ s = AllowedSplits.ALL) := by
  obtain ⟨u⟩ := s
  have hu : u < 16 := Nat.lt_succ_of_le hs
  have key : ∀ p, p < 16 →
      AllowedSplits.left_or_right ⟨p⟩
        = (AllowedSplits.left ⟨p⟩ || AllowedSplits.right ⟨p⟩) ∧
      AllowedSplits.top_or_bottom ⟨p⟩
        = (AllowedSplits.top ⟨p⟩ || AllowedSplits.bottom ⟨p⟩) ∧
      (AllowedSplits.none ⟨p⟩ = true ↔ (⟨p⟩ : AllowedSplits) = AllowedSplits.NONE) ∧
      (AllowedSplits.all ⟨p⟩ = true ↔ (⟨p⟩ : AllowedSplits) = AllowedSplits.ALL) := by
    decide
  exact key u hu

/-- Witness for C9 at s = TOP_BOTTOM. -/
theorem c9_compound_predicates_witness :
    AllowedSplits.TOP_BOTTOM.left_or_right
      = (AllowedSplits.TOP_BOTTOM.left || AllowedSplits.TOP_BOTTOM.right) ∧
    AllowedSplits.TOP_BOTTOM.top_or_bottom
      = (AllowedSplits.TOP_BOTTOM.top || AllowedSplits.TOP_BOTTOM.bottom) ∧
    (AllowedSplits.TOP_BOTTOM.none = true
      ↔ AllowedSplits.TOP_BOTTOM = AllowedSplits.NONE) ∧
    (AllowedSplits.TOP_BOTTOM.all = true
      ↔ AllowedSplits.TOP_BOTTOM = AllowedSplits.ALL) :=
  c9_compound_predicates AllowedSplits.TOP_BOTTOM (by decide)

/-- C10: structural equality on valid permission sets is extensional in the
four direction predicates: a = b iff left, right, top, bottom all agree. -/
theorem c10_extensional_equality (a b : AllowedSplits)
    (ha : a.Valid) (hb : b.Valid) :
    a = b ↔ (a.left = b.left ∧ a.right = b.right ∧
             a.top = b.top ∧ a.bottom = b.bottom) := by
  obtain ⟨x⟩ := a
  obtain ⟨y⟩ := b
  have hx : x < 16 := Nat.lt_succ_of_le ha
  have hy : y < 16 := Nat.lt_succ_of_le hb
  have key : ∀ u, u < 16 → ∀ w, w < 16 →
      ((⟨u⟩ : AllowedSplits) = ⟨w⟩ ↔
        (AllowedSplits.left ⟨u⟩ = AllowedSplits.left ⟨w⟩ ∧
         AllowedSplits.right ⟨u⟩ = AllowedSplits.right ⟨w⟩ ∧
         AllowedSplits.top ⟨u⟩ = AllowedSplits.top ⟨w⟩ ∧
         AllowedSplits.bottom ⟨u⟩ = AllowedSplits.bottom ⟨w⟩)) := by decide
  exact key x hx y hy

/-- Witness for C10 at a = LEFT, b = RIGHT (distinct sets with differing
predicates). -/
theorem c10_extensional_equality_witness :
    AllowedSplits.LEFT = AllowedSplits.RIGHT ↔
      (AllowedSplits.LEFT.left = AllowedSplits.RIGHT.left ∧
       AllowedSplits.LEFT.right = AllowedSplits.RIGHT.right ∧
       AllowedSplits.LEFT.top = AllowedSplits.RIGHT.top ∧
       AllowedSplits.LEFT.bottom = AllowedSplits.RIGHT.bottom) :=
  c10_extensional_equality AllowedSplits.LEFT AllowedSplits.RIGHT
    (by decide) (by decide)
